import Mathlib

/-!
Verification of the Prompt Registry & LLM Completion Engine core of the
Resume-Matcher repository.

Pure functions are translated directly from the frontend TypeScript sources
(`apps/frontend/...`).  Backend Python modules (`apps/backend/app/llm.py`,
`prompt_registry.py`, `services/section_regenerator.py`) are not part of the
source tree given here; where a claim depends on them, the definition is
modelled from the specification text and marked as such in its doc comment.
-/

/-- JSON values as produced by a standard JSON parser.  Numbers are modelled
as integers, which covers every value the completion pipeline claims touch. -/
inductive Json where
  | null : Json
  | bool : Bool → Json
  | num : Int → Json
  | str : String → Json
  | arr : List Json → Json
  | obj : List (String × Json) → Json

/-- Drop leading JSON whitespace. -/
def skipWs : List Char → List Char
  | [] => []
  | c :: rest =>
    if c = ' ' ∨ c = '\n' ∨ c = '\t' ∨ c = '\r' then skipWs rest else c :: rest

/-- Parse the body of a JSON string literal (after the opening quote),
handling backslash escapes; returns the decoded characters and the rest of
the input after the closing quote. -/
def parseStrChars : List Char → Option (List Char × List Char)
  | [] => none
  | '"' :: rest => some ([], rest)
  | '\\' :: e :: rest =>
    (match e with
     | '"' => some '"'
     | '\\' => some '\\'
     | '/' => some '/'
     | 'n' => some '\n'
     | 't' => some '\t'
     | 'r' => some '\r'
     | 'b' => some (Char.ofNat 8)
     | 'f' => some (Char.ofNat 12)
     | _ => none).bind fun d =>
      (parseStrChars rest).map fun (cs, r) => (d :: cs, r)
  | '\\' :: [] => none
  | c :: rest => (parseStrChars rest).map fun (cs, r) => (c :: cs, r)

/-- Numeric value of a digit run. -/
def natFromDigits (l : List Char) : Nat :=
  l.foldl (fun a c => a * 10 + (c.toNat - 48)) 0

/-- Parse a JSON integer (optional minus sign followed by digits). -/
def parseNumber (l : List Char) : Option (Json × List Char) :=
  match l with
  | '-' :: rest =>
    let (ds, r) := rest.span Char.isDigit
    if ds = [] then none else some (.num (-(natFromDigits ds : Int)), r)
  | _ =>
    let (ds, r) := l.span Char.isDigit
    if ds = [] then none else some (.num (natFromDigits ds : Int), r)

mutual

/-- Recursive-descent JSON value parser; `fuel` bounds the nesting depth. -/
def parseValue : Nat → List Char → Option (Json × List Char)
  | 0, _ => none
  | Nat.succ fuel, l =>
    match skipWs l with
    | '{' :: rest =>
      (match skipWs rest with
       | '}' :: rest2 => some (.obj [], rest2)
       | rest2 => (parseMembers fuel rest2).map fun (ms, r) => (.obj ms, r))
    | '[' :: rest =>
      (match skipWs rest with
       | ']' :: rest2 => some (.arr [], rest2)
       | rest2 => (parseItems fuel rest2).map fun (xs, r) => (.arr xs, r))
    | '"' :: rest => (parseStrChars rest).map fun (cs, r) => (.str (String.mk cs), r)
    | 't' :: 'r' :: 'u' :: 'e' :: rest => some (.bool true, rest)
    | 'f' :: 'a' :: 'l' :: 's' :: 'e' :: rest => some (.bool false, rest)
    | 'n' :: 'u' :: 'l' :: 'l' :: rest => some (.null, rest)
    | l2 => parseNumber l2

/-- Parse the comma-separated items of a non-empty JSON array, up to and
including the closing bracket. -/
def parseItems : Nat → List Char → Option (List Json × List Char)
  | 0, _ => none
  | Nat.succ fuel, l =>
    match parseValue fuel l with
    | none => none
    | some (v, r) =>
      match skipWs r with
      | ',' :: r2 => (parseItems fuel r2).map fun (xs, r3) => (v :: xs, r3)
      | ']' :: r2 => some ([v], r2)
      | _ => none

/-- Parse the comma-separated members of a non-empty JSON object, up to and
including the closing brace. -/
def parseMembers : Nat → List Char → Option (List (String × Json) × List Char)
  | 0, _ => none
  | Nat.succ fuel, l =>
    match skipWs l with
    | '"' :: rest =>
      (match parseStrChars rest with
       | none => none
       | some (k, r) =>
         match skipWs r with
         | ':' :: r2 =>
           (match parseValue fuel r2 with
            | none => none
            | some (v, r3) =>
              match skipWs r3 with
              | ',' :: r4 => (parseMembers fuel r4).map fun (ms, r5) => ((String.mk k, v) :: ms, r5)
              | '}' :: r4 => some ([(String.mk k, v)], r4)
              | _ => none)
         | _ => none)
    | _ => none

end

/-- Parse a complete JSON document: one value followed by only whitespace. -/
def parseJson (s : String) : Option Json :=
  let l := s.toList
  match parseValue (l.length + 1) l with
  | some (v, r) => if skipWs r = [] then some v else none
  | none => none

/-! ## JSON extraction (`_extract_json` in `apps/backend/app/llm.py`) -/

/-- Modelled from the spec: state of the bracket-depth scan of `_extract_json`
(the backend module is absent from the given sources).  Brace and bracket
depths are tracked independently; `inString` and `escape` track whether the
scanner is inside a quoted string literal. -/
structure ScanState where
  braceDepth : Int
  bracketDepth : Int
  inString : Bool
  escape : Bool
deriving DecidableEq

/-- Modelled from the spec: one character step of the bracket-depth scan.
Inside a quoted string only the string/escape flags change, so bracket
characters occurring in string values never perturb the depth counts. -/
def scanStep (st : ScanState) (c : Char) : ScanState :=
  if st.inString then
    if st.escape then { st with escape := false }
    else if c = '\\' then { st with escape := true }
    else if c = '"' then { st with inString := false }
    else st
  else
    if c = '"' then { st with inString := true }
    else if c = '{' then { st with braceDepth := st.braceDepth + 1 }
    else if c = '}' then { st with braceDepth := st.braceDepth - 1 }
    else if c = '[' then { st with bracketDepth := st.bracketDepth + 1 }
    else if c = ']' then { st with bracketDepth := st.bracketDepth - 1 }
    else st

/-- Does this character open a JSON container? -/
def isOpenChar (c : Char) : Bool := c = '{' || c = '['

/-- Index of the first opening brace or bracket character, if any. -/
def findOpen : List Char → Option Nat
  | [] => none
  | c :: rest => if isOpenChar c then some 0 else (findOpen rest).map (· + 1)

/-- Initial scan state (the opening character itself is the first one
processed, which brings its depth to 1). -/
def initScan : ScanState := ⟨0, 0, false, false⟩

/-- Modelled from the spec: scan forward from the opening character,
accumulating consumed characters (in reverse), and stop as soon as both depth
counters return to 0; `none` when the input ends unbalanced. -/
def scanBalanced : ScanState → List Char → List Char → Option (List Char)
  | _, _, [] => none
  | st, acc, c :: rest =>
    let st2 := scanStep st c
    if st2.braceDepth = 0 ∧ st2.bracketDepth = 0 then some (c :: acc).reverse
    else scanBalanced st2 (c :: acc) rest

/-- Whitespace test used when trimming a raw model response. -/
def isWsChar (c : Char) : Bool := c = ' ' || c = '\n' || c = '\t' || c = '\r'

/-- Trim leading and trailing whitespace from a character list. -/
def trimChars (l : List Char) : List Char :=
  ((l.dropWhile isWsChar).reverse.dropWhile isWsChar).reverse

/-- Is the first list a prefix of the second? -/
def isPrefixChars : List Char → List Char → Bool
  | [], _ => true
  | _ :: _, [] => false
  | p :: ps, c :: cs => p = c && isPrefixChars ps cs

/-- The triple-backtick code-fence marker. -/
def fenceChars : List Char := "```".toList

/-- Drop a trailing code-fence marker, if present. -/
def stripTrailingFence (l : List Char) : List Char :=
  let t := trimChars l
  if isPrefixChars fenceChars.reverse t.reverse
  then trimChars ((t.reverse.drop 3).reverse) else t

/-- Modelled from the spec: strip surrounding markdown code-fence markers
(text bounded by triple backticks, optionally tagged `json`) if present. -/
def stripFences (l : List Char) : List Char :=
  let t := trimChars l
  if isPrefixChars ("```json".toList) t then stripTrailingFence (t.drop 7)
  else if isPrefixChars fenceChars t then stripTrailingFence (t.drop 3)
  else l

/-- Modelled from the spec: the JSON-extraction algorithm of
`_extract_json` in `apps/backend/app/llm.py` (absent from the given
sources).  Strip code fences, locate the first opening brace or bracket, scan to the
balanced closing character skipping string literals, then parse the
candidate with the JSON parser.  `none` means extraction failed. -/
def extractJson (text : String) : Option Json :=
  let l := stripFences text.toList
  match findOpen l with
  | none => none
  | some i =>
    match scanBalanced initScan [] (l.drop i) with
    | none => none
    | some cand => parseJson (String.mk cand)

/-- The list of starting offsets the extraction algorithm scans from: at most
the single position of the first opening character. -/
def startOffsets (text : String) : List Nat :=
  match findOpen (stripFences text.toList) with
  | none => []
  | some i => [i]

/-! ## Completion engine (`complete_json` in `apps/backend/app/llm.py`) -/

/-- Modelled from the spec: error raised when both extraction attempts fail,
carrying the last raw response text for diagnostics. -/
inductive CompletionError where
  | jsonExtraction (lastRaw : String)
deriving DecidableEq

/-- A successful structured completion: the parsed value, the temperature the
successful attempt ran at, and which attempt succeeded. -/
structure CompletionOk where
  value : Json
  temperatureUsed : ℚ
  attempt : Nat

/-- Temperature of the first structured attempt. -/
def attempt1Temp : ℚ := 1/10

/-- Temperature of the second, maximally deterministic attempt. -/
def attempt2Temp : ℚ := 0

/-- Modelled from the spec: the retry/repair loop of `complete_json` in
`apps/backend/app/llm.py` (absent from the given sources).  The provider is a
stub mapping an attempt index and temperature to a raw response.  Attempt 1
runs at temperature 0.1; if extraction fails, attempt 2 runs at temperature
0.0; if extraction still fails the call errors with the last raw text.  The
second component records the provider calls actually made. -/
def complete_json (provider : Nat → ℚ → String) :
    Except CompletionError CompletionOk × List (Nat × ℚ) :=
  let raw1 := provider 1 attempt1Temp
  match extractJson raw1 with
  | some v => (.ok ⟨v, attempt1Temp, 1⟩, [(1, attempt1Temp)])
  | none =>
    let raw2 := provider 2 attempt2Temp
    match extractJson raw2 with
    | some v => (.ok ⟨v, attempt2Temp, 2⟩, [(1, attempt1Temp), (2, attempt2Temp)])
    | none => (.error (.jsonExtraction raw2), [(1, attempt1Temp), (2, attempt2Temp)])

/-! ## Prompt registry (`apps/backend/app/prompt_registry.py`) -/

/-- Modelled from the spec: an immutable catalog entry. -/
structure PromptDefinition where
  id : String
  default_name : String
  default_content : String
  description : String
  category : String
  declared_variables : List String
  used_in : List String
  default_enabled : Bool

/-- Modelled from the spec: the persisted per-prompt override row
(`apps/backend/data/prompts.json` holds one such object per customized id). -/
structure PromptOverride where
  custom_content : Option String
  custom_name : Option String
  enabled : Option Bool
deriving DecidableEq

/-- The override store: persisted association of prompt ids to override rows. -/
abbrev OverrideStore := List (String × PromptOverride)

/-- Token estimation heuristic from
`src/unnamed/part_001` (custom-prompts doc): `len(text) // 4`. -/
def estimate_tokens (text : String) : Nat := text.length / 4

/-- Token estimate computed by the prompt editor
(`apps/frontend/components/settings/prompt-editor.tsx`, line 46):
`Math.floor(content.length / 4)`. -/
def currentTokens (content : String) : Nat := content.length / 4

/-- The row used when updating an id that has no override yet. -/
def emptyOverride : PromptOverride := ⟨none, none, none⟩

/-- Modelled from the spec: the derived read-only `EffectivePrompt` view. -/
structure EffectivePrompt where
  content : String
  name : String
  is_custom : Bool
  is_enabled : Bool
  token_count : Nat
  default_token_count : Nat

/-- Modelled from the spec: merge one catalog definition with its optional
override row; `is_custom` is derived from override content/name presence,
never stored. -/
def effectivePrompt (d : PromptDefinition) (ov : Option PromptOverride) : EffectivePrompt :=
  { content := (ov.bind (·.custom_content)).getD d.default_content
  , name := (ov.bind (·.custom_name)).getD d.default_name
  , is_custom := (ov.bind (·.custom_content)).isSome || (ov.bind (·.custom_name)).isSome
  , is_enabled := (ov.bind (·.enabled)).getD d.default_enabled
  , token_count := estimate_tokens ((ov.bind (·.custom_content)).getD d.default_content)
  , default_token_count := estimate_tokens d.default_content }

/-- Find a catalog definition by id. -/
def findDef : List PromptDefinition → String → Option PromptDefinition
  | [], _ => none
  | d :: rest, id => if d.id = id then some d else findDef rest id

/-- Look up the override row for an id. -/
def lookupOverride : OverrideStore → String → Option PromptOverride
  | [], _ => none
  | kv :: rest, id => if kv.1 = id then some kv.2 else lookupOverride rest id

/-- Write (replace-or-insert) the override row for an id. -/
def setOverride : OverrideStore → String → PromptOverride → OverrideStore
  | [], id, ov => [(id, ov)]
  | kv :: rest, id, ov =>
    if kv.1 = id then (id, ov) :: rest else kv :: setOverride rest id ov

/-- Registry-level error: the prompt id is not in the catalog. -/
inductive RegistryError where
  | notFound
deriving DecidableEq

/-- Optional fields of a prompt update request
(`PromptUpdateRequest` in `apps/frontend/lib/api/prompts.ts`). -/
structure UpdateFields where
  content : Option String
  custom_name : Option String
  enabled : Option Bool

/-- Modelled from the spec: apply an update to an override row; supplied
fields are written, omitted fields are unchanged. -/
def applyUpdate (ov : PromptOverride) (u : UpdateFields) : PromptOverride :=
  { custom_content := match u.content with | some x => some x | none => ov.custom_content
  , custom_name := match u.custom_name with | some x => some x | none => ov.custom_name
  , enabled := match u.enabled with | some b => some b | none => ov.enabled }

/-- Clear the content/name fields of an override row, preserving `enabled`
(the row is cleared, not deleted). -/
def clearContentName (ov : PromptOverride) : PromptOverride :=
  { ov with custom_content := none, custom_name := none }

/-- Modelled from the spec: `get(id)` resolves the effective prompt, failing
with `NotFoundError` on an unknown id (`get_prompt` in
`apps/backend/app/prompt_registry.py`, absent from the given sources). -/
def get_prompt (catalog : List PromptDefinition) (store : OverrideStore)
    (id : String) : Except RegistryError EffectivePrompt :=
  match findDef catalog id with
  | none => .error .notFound
  | some d => .ok (effectivePrompt d (lookupOverride store id))

/-- Modelled from the spec: `update(id, ...)` writes through to the override
store and returns the new effective prompt (`update_prompt` in
`apps/backend/app/prompt_registry.py`, absent from the given sources). -/
def update_prompt (catalog : List PromptDefinition) (store : OverrideStore)
    (id : String) (u : UpdateFields) :
    Except RegistryError (EffectivePrompt × OverrideStore) :=
  match findDef catalog id with
  | none => .error .notFound
  | some d =>
    let ov := (lookupOverride store id).getD emptyOverride
    let ov2 := applyUpdate ov u
    .ok (effectivePrompt d (some ov2), setOverride store id ov2)

/-- Modelled from the spec: `reset(id)` clears `custom_content` and
`custom_name` while leaving `enabled` untouched; a reset with nothing to
reset is a no-op success (`reset_prompt` in
`apps/backend/app/prompt_registry.py`, absent from the given sources). -/
def reset_prompt (catalog : List PromptDefinition) (store : OverrideStore)
    (id : String) : Except RegistryError (EffectivePrompt × OverrideStore) :=
  match findDef catalog id with
  | none => .error .notFound
  | some d =>
    let ov := (lookupOverride store id).getD emptyOverride
    let ov2 := clearContentName ov
    .ok (effectivePrompt d (some ov2), setOverride store id ov2)

/-- Modelled from the spec: `resetAll()` clears content/name overrides for
every prompt that has one, preserving each prompt's enabled state (the
`reset-all` endpoint behind `resetAllPrompts` in
`apps/frontend/lib/api/prompts.ts`). -/
def reset_all_prompts (store : OverrideStore) : OverrideStore :=
  store.map fun kv => (kv.1, clearContentName kv.2)

/-! ## Section regeneration service
(`apps/backend/app/services/section_regenerator.py`) -/

/-- Errors of the section regeneration pipeline. -/
inductive RegenError where
  | unsupportedSection
  | notFound
  | promptDisabled
  | missingVariable
  | jsonExtraction (raw : String)
deriving DecidableEq

/-- Modelled from the spec: the closed map from section identifiers to
prompt ids used by the Section Regeneration Service (the backend module is
absent from the given sources; the mapping is recorded in
`src/unnamed/part_001` and `src/docs/agent/80-llm-integration.md`).  Any
other identifier fails with `UnsupportedSectionError`. -/
def sectionPromptId (s : String) : Except RegenError String :=
  if s = "summary" then .ok "regenerate_summary"
  else if s = "experience" then .ok "regenerate_experience"
  else if s = "projects" then .ok "regenerate_project"
  else if s = "skills" then .ok "regenerate_skills"
  else .error .unsupportedSection

/-- Collect the `\x7bname\x7d`-style placeholders of a template.  The first
argument tells whether the scanner is currently inside a placeholder whose
accumulated (reversed) name is the second argument. -/
def placeholdersAux : Bool → List Char → List Char → List String
  | _, _, [] => []
  | false, _, c :: rest =>
    if c = '{' then placeholdersAux true [] rest else placeholdersAux false [] rest
  | true, acc, c :: rest =>
    if c = '}' then String.mk acc.reverse :: placeholdersAux false [] rest
    else placeholdersAux true (c :: acc) rest

/-- The placeholder names appearing in a template string. -/
def placeholders (template : String) : List String :=
  placeholdersAux false [] template.toList

/-- Substitute each supplied variable into the template (single-brace
`\x7bname\x7d` syntax). -/
def substituteVars (template : String) (vars : List (String × String)) : String :=
  vars.foldl (fun acc kv => acc.replace ("\x7b" ++ kv.1 ++ "\x7d") kv.2) template

/-- Placeholders of the template with no supplied value. -/
def missingVars (template : String) (vars : List (String × String)) : List String :=
  (placeholders template).filter fun p => !(vars.any fun kv => kv.1 = p)

/-- Modelled from the spec: format a prompt by substituting `\x7bname\x7d`
placeholders, failing with `MissingVariableError` when a placeholder has no
supplied value; extra supplied variables are silently ignored. -/
def formatPrompt (template : String) (vars : List (String × String)) :
    Except RegenError String :=
  if missingVars template vars = [] then .ok (substituteVars template vars)
  else .error .missingVariable

/-- Regenerated content: plain text for summary/skills, structured JSON for
experience/projects. -/
inductive RegenContent where
  | text (s : String)
  | json (j : Json)

/-- Response of the regenerate-section endpoint: original content alongside
regenerated content and the prompt id actually used. -/
structure RegenResponse where
  section_type : String
  original_content : String
  regenerated_content : RegenContent
  prompt_used : String

/-- Is this section's content structured (a list), so that `complete_json`
rather than `complete` is used? -/
def sectionStructured (s : String) : Bool := s = "experience" || s = "projects"

/-- Modelled from the spec: the Section Regeneration Service
(`apps/backend/app/services/section_regenerator.py`, absent from the given
sources).  Maps the section identifier to a prompt id, resolves the
effective prompt (failing with `PromptDisabledError` when disabled, before
any provider call), formats the variables, and invokes the completion
engine — `complete_json` for structured sections, `complete` otherwise.
The provider stub maps (formatted prompt, attempt, temperature) to a raw
response; the second component counts provider invocations. -/
def regenerateSection (catalog : List PromptDefinition) (store : OverrideStore)
    (sectionType : String) (current : String) (contextStr : Option String)
    (provider : String → Nat → ℚ → String) :
    Except RegenError RegenResponse × Nat :=
  match sectionPromptId sectionType with
  | .error e => (.error e, 0)
  | .ok pid =>
    match get_prompt catalog store pid with
    | .error _ => (.error .notFound, 0)
    | .ok ep =>
      if ep.is_enabled then
        let vars := [("current_content", current)] ++
          (match contextStr with | some c => [("context", c)] | none => [])
        match formatPrompt ep.content vars with
        | .error e => (.error e, 0)
        | .ok formatted =>
          if sectionStructured sectionType then
            match complete_json (fun n t => provider formatted n t) with
            | (.ok res, calls) =>
              (.ok ⟨sectionType, current, .json res.value, pid⟩, calls.length)
            | (.error (.jsonExtraction raw), calls) =>
              (.error (.jsonExtraction raw), calls.length)
          else
            (.ok ⟨sectionType, current, .text (provider formatted 1 attempt1Temp), pid⟩, 1)
      else (.error .promptDisabled, 0)

/-! ## Frontend regeneration request building
(`apps/frontend/components/builder/resume-form.tsx`, `handleRegenerate`) -/

/-- The optional context object offered by the regenerate button
(`RegenerateContext` in `regenerate-button.tsx`). -/
structure RegenContext where
  job_description : Option String
  target_role : Option String
  target_industry : Option String
  tone : Option String
  length : Option String

/-- The request sent to the regenerate-section endpoint
(`RegenerateSectionRequest` in `apps/frontend/lib/api/regenerate.ts`). -/
structure FrontRequest where
  section_type : String
  context : Option String
  job_description : Option String

/-- Translated from `handleRegenerate` (resume-form.tsx lines 83-89): the
contextual instruction parts pushed in order for the present fields
`target_role`, `target_industry`, `tone`, `length`. -/
def buildContextParts (ctx : RegenContext) : List String :=
  let p0 : List String := []
  let p1 := match ctx.target_role with
    | some v => p0 ++ ["Target role: " ++ v]
    | none => p0
  let p2 := match ctx.target_industry with
    | some v => p1 ++ ["Target industry: " ++ v]
    | none => p1
  let p3 := match ctx.tone with
    | some v => p2 ++ ["Tone: " ++ v]
    | none => p2
  match ctx.length with
  | some v => p3 ++ ["Length: " ++ v]
  | none => p3

/-- Translated from `handleRegenerate` (resume-form.tsx lines 91-95): the
request carries the joined context string (or nothing when no parts), and
the job description as its own separate field. -/
def buildRequest (sectionType : String) (ctx : Option RegenContext) : FrontRequest :=
  let parts := match ctx with | some c => buildContextParts c | none => []
  { section_type := sectionType
  , context := if parts.length > 0 then some (String.intercalate ". " parts) else none
  , job_description := ctx.bind (·.job_description) }

/-! ## Applying a regenerate-section response
(`apps/frontend/components/builder/resume-form.tsx`, lines 99-127) -/

/-- JavaScript truthiness of a JSON value. -/
def jsTruthy : Json → Bool
  | .null => false
  | .bool b => b
  | .num n => n != 0
  | .str s => s != ""
  | .arr _ => true
  | .obj _ => true

/-- JavaScript `typeof` of a JSON value (arrays and `null` are objects). -/
def jsTypeof : Json → String
  | .null => "object"
  | .bool _ => "boolean"
  | .num _ => "number"
  | .str _ => "string"
  | .arr _ => "object"
  | .obj _ => "object"

/-- Is the value a JavaScript array (`Array.isArray`)? -/
def isArray : Json → Bool
  | .arr _ => true
  | _ => false

/-- The resume fields touched by section regeneration
(`ResumeData` in `components/dashboard/resume-component`). -/
structure ResumeData where
  summary : String
  workExperience : List Json
  personalProjects : List Json
  additional : Json

/-- Translated from the `switch (sectionKey)` of `handleRegenerate`
(resume-form.tsx lines 100-124): apply the regenerated content only when its
runtime type matches the section's shape, otherwise leave the data
unchanged.  `none` models an absent (`undefined`) `regenerated_content`. -/
def applyRegenerated (sectionKey : String) (data : ResumeData)
    (content : Option Json) : ResumeData :=
  match content with
  | none => data
  | some j =>
    if sectionKey = "summary" then
      if jsTruthy j && (jsTypeof j = "string") then
        match j with
        | .str s => { data with summary := s }
        | _ => data
      else data
    else if sectionKey = "workExperience" then
      if jsTruthy j && isArray j then
        match j with
        | .arr l => { data with workExperience := l }
        | _ => data
      else data
    else if sectionKey = "personalProjects" then
      if jsTruthy j && isArray j then
        match j with
        | .arr l => { data with personalProjects := l }
        | _ => data
      else data
    else if sectionKey = "additional" then
      if jsTruthy j && (jsTypeof j = "object") then { data with additional := j }
      else data
    else data

/-! ## Concrete instances used by witnesses -/

/-- A concrete catalog entry for the summary regeneration prompt. -/
def demoDef : PromptDefinition :=
  { id := "regenerate_summary"
  , default_name := "Summary Regenerator"
  , default_content := "Rewrite \x7bcurrent_content\x7d"
  , description := "Rewrites the professional summary"
  , category := "regeneration"
  , declared_variables := ["current_content"]
  , used_in := ["Resume Builder"]
  , default_enabled := true }

/-- A one-entry concrete catalog. -/
def demoCatalog : List PromptDefinition := [demoDef]

/-- A store in which the summary regeneration prompt is disabled. -/
def demoStoreDisabled : OverrideStore :=
  [("regenerate_summary", ⟨none, none, some false⟩)]

/-- A provider stub returning malformed text on attempt 1 and valid JSON on
attempt 2. -/
def stubProvider (n : Nat) (_ : ℚ) : String :=
  if n = 1 then "oops" else "\x7b\"ok\": true\x7d"

/-- A regeneration context supplying only a job description. -/
def ctxJDOnly : RegenContext := ⟨some "Build APIs", none, none, none, none⟩

/-- A concrete resume-data value. -/
def demoData : ResumeData :=
  { summary := "old", workExperience := [], personalProjects := [], additional := .obj [] }

/-! ## Helper lemmas -/

/-- A list with no opening brace/bracket has no first opening character. -/
theorem findOpen_eq_none (l : List Char) (h : ∀ c ∈ l, isOpenChar c = false) :
    findOpen l = none := by
  induction l with
  | nil => rfl
  | cons c rest ih =>
    have hr := ih fun x hx => h x (List.mem_cons_of_mem _ hx)
    simp [findOpen, h c (List.mem_cons_self c rest), hr]

/-- The balanced scan consumes at most the remaining input: a returned
candidate is no longer than the accumulator plus the input. -/
theorem scanBalanced_length_le (l : List Char) :
    ∀ (st : ScanState) (acc cand : List Char),
      scanBalanced st acc l = some cand → cand.length ≤ acc.length + l.length := by
  induction l with
  | nil => intro st acc cand h; simp [scanBalanced] at h
  | cons c rest ih =>
    intro st acc cand h
    simp only [scanBalanced] at h
    split at h
    · cases h
      simp only [List.length_reverse, List.length_cons]
      omega
    · have := ih _ _ _ h
      simp only [List.length_cons] at this ⊢
      omega

/-- Writing an override row and reading it back yields exactly that row. -/
theorem lookupOverride_setOverride_self (store : OverrideStore) (id : String)
    (ov : PromptOverride) :
    lookupOverride (setOverride store id ov) id = some ov := by
  induction store with
  | nil => simp [setOverride, lookupOverride]
  | cons kv rest ih =>
    by_cases h : kv.1 = id
    · simp [setOverride, h, lookupOverride]
    · simp [setOverride, h, lookupOverride, ih]

/-- Looking up through a per-row map commutes with the map. -/
theorem lookupOverride_map (f : PromptOverride → PromptOverride)
    (store : OverrideStore) (id : String) :
    lookupOverride (store.map fun kv => (kv.1, f kv.2)) id =
      (lookupOverride store id).map f := by
  induction store with
  | nil => rfl
  | cons kv rest ih =>
    by_cases h : kv.1 = id
    · simp [lookupOverride, h]
    · simp [lookupOverride, h, ih]

/-- Projecting a field that is `none` on the empty row out of `getD
emptyOverride` is the same as binding the projection. -/
theorem proj_getD_emptyOverride {α : Type} (o : Option PromptOverride)
    (f : PromptOverride → Option α) (h : f emptyOverride = none) :
    f (o.getD emptyOverride) = o.bind f := by
  cases o <;> simp [h]

/-! ## Claim theorems -/

/-- C1: the JSON-extraction scan performs bracket-depth matching that skips
bracket characters inside quoted strings — while the in-string flag is set a
scan step never changes either depth counter — and on the given noisy input
extraction returns exactly the parsed object, the literal closing brace in
the string value notwithstanding. -/
theorem c1_extract_json_string_aware :
    (∀ (st : ScanState) (c : Char), st.inString = true →
      (scanStep st c).braceDepth = st.braceDepth ∧
      (scanStep st c).bracketDepth = st.bracketDepth) ∧
    extractJson "noise \x7b\"a\": 1, \"b\": [1,2,\x7b\"c\":\"\x7d\"\x7d]\x7d trailing" =
      some (.obj [("a", .num 1),
                  ("b", .arr [.num 1, .num 2, .obj [("c", .str "\x7d")]])]) := by
  refine ⟨fun st c hin => ?_, by rfl⟩
  simp only [scanStep, hin, if_true]
  split
  · exact ⟨rfl, rfl⟩
  · split
    · exact ⟨rfl, rfl⟩
    · split
      · exact ⟨rfl, rfl⟩
      · exact ⟨rfl, rfl⟩

/-- Witness for C1: a concrete in-string scan step leaves both depths
unchanged, and the concrete round-trip extraction holds. -/
theorem c1_extract_json_string_aware_witness :
    ((scanStep ⟨1, 0, true, false⟩ '}').braceDepth = 1 ∧
     (scanStep ⟨1, 0, true, false⟩ '}').bracketDepth = 0) ∧
    extractJson "noise \x7b\"a\": 1, \"b\": [1,2,\x7b\"c\":\"\x7d\"\x7d]\x7d trailing" =
      some (.obj [("a", .num 1),
                  ("b", .arr [.num 1, .num 2, .obj [("c", .str "\x7d")]])]) :=
  ⟨c1_extract_json_string_aware.1 ⟨1, 0, true, false⟩ '}' rfl,
   c1_extract_json_string_aware.2⟩

/-- C2: extraction on text with no opening brace/bracket fails immediately;
a balanced scan never consumes more characters than the input holds (its
candidate is bounded by the input length); and the algorithm scans from at
most one starting offset, so no starting offset is ever revisited. -/
theorem c2_extraction_terminates :
    (∀ text : String, (∀ c ∈ stripFences text.toList, isOpenChar c = false) →
      extractJson text = none) ∧
    (∀ (st : ScanState) (acc l cand : List Char),
      scanBalanced st acc l = some cand → cand.length ≤ acc.length + l.length) ∧
    (∀ text : String, (startOffsets text).Nodup) := by
  refine ⟨fun text h => ?_, fun st acc l cand h => scanBalanced_length_le l st acc cand h,
    fun text => ?_⟩
  · have h2 : findOpen (stripFences text.data) = none := findOpen_eq_none _ h
    simp [extractJson, h2]
  · unfold startOffsets
    cases findOpen (stripFences text.toList) <;> simp

/-- Witness for C2: a bracket-free text fails extraction, and a concrete
balanced scan is bounded by its input length. -/
theorem c2_extraction_terminates_witness :
    extractJson "hello world" = none ∧
    (['{', '}'] : List Char).length ≤ ([] : List Char).length + (['{', '}'] : List Char).length :=
  ⟨c2_extraction_terminates.1 "hello world" (by decide),
   c2_extraction_terminates.2.1 initScan [] ['{', '}'] ['{', '}'] (by rfl)⟩

/-- C4 counterexample: on the three-character content "abc" the code's token
estimate is 0, while ceil(3/4) = 1 — the estimate is not ceil(length/4). -/
theorem c4_counterexample_not_ceil :
    currentTokens "abc" = 0 ∧ ("abc".length + 3) / 4 = 1 ∧
    currentTokens "abc" ≠ ("abc".length + 3) / 4 := by
  refine ⟨rfl, rfl, ?_⟩
  decide

/-- C4 (amended): the token estimate is a deterministic pure function of the
content equal to floor(length/4) — the frontend editor and the backend
heuristic agree on it — and it coincides with ceil(length/4) exactly when
the length is a multiple of 4. -/
theorem c4_token_estimate_floor (content : String) :
    currentTokens content = content.length / 4 ∧
    estimate_tokens content = currentTokens content ∧
    (currentTokens content = (content.length + 3) / 4 ↔ content.length % 4 = 0) := by
  refine ⟨rfl, rfl, ?_⟩
  unfold currentTokens
  omega

/-- C7: the regeneration service maps exactly summary, experience, projects
and skills to their regenerate_* prompt ids, and every other section
identifier fails with UnsupportedSectionError. -/
theorem c7_section_prompt_map :
    sectionPromptId "summary" = .ok "regenerate_summary" ∧
    sectionPromptId "experience" = .ok "regenerate_experience" ∧
    sectionPromptId "projects" = .ok "regenerate_project" ∧
    sectionPromptId "skills" = .ok "regenerate_skills" ∧
    ∀ s : String, s ≠ "summary" → s ≠ "experience" → s ≠ "projects" → s ≠ "skills" →
      sectionPromptId s = .error .unsupportedSection := by
  refine ⟨rfl, rfl, rfl, rfl, fun s h1 h2 h3 h4 => ?_⟩
  simp [sectionPromptId, h1, h2, h3, h4]

/-- Witness for C7: the education section identifier is rejected. -/
theorem c7_section_prompt_map_witness :
    sectionPromptId "education" = .error .unsupportedSection :=
  c7_section_prompt_map.2.2.2.2 "education" (by decide) (by decide) (by decide) (by decide)

/-- C3: for every provider behaviour, complete_json makes at most two
sequential attempts — attempt 1 at temperature 0.1, attempt 2 at
temperature 0.0 — succeeds with no error surfaced when extraction succeeds
on either attempt, and fails with JsonExtractionError carrying the last raw
response when both fail, with no third attempt. -/
theorem c3_complete_json_two_attempts (provider : Nat → ℚ → String) :
    ((complete_json provider).2).length ≤ 2 ∧
    (∀ v : Json, extractJson (provider 1 attempt1Temp) = some v →
      (complete_json provider).1 = .ok ⟨v, attempt1Temp, 1⟩ ∧
      (complete_json provider).2 = [(1, attempt1Temp)]) ∧
    (∀ v : Json, extractJson (provider 1 attempt1Temp) = none →
      extractJson (provider 2 attempt2Temp) = some v →
      (complete_json provider).1 = .ok ⟨v, attempt2Temp, 2⟩ ∧
      (complete_json provider).2 = [(1, attempt1Temp), (2, attempt2Temp)]) ∧
    (extractJson (provider 1 attempt1Temp) = none →
      extractJson (provider 2 attempt2Temp) = none →
      (complete_json provider).1 = .error (.jsonExtraction (provider 2 attempt2Temp)) ∧
      (complete_json provider).2 = [(1, attempt1Temp), (2, attempt2Temp)]) := by
  unfold complete_json
  cases h1 : extractJson (provider 1 attempt1Temp) with
  | some v => simp [h1]
  | none => cases h2 : extractJson (provider 2 attempt2Temp) <;> simp [h1, h2]

/-- Witness for C3: with a stub provider whose attempt 1 is malformed and
whose attempt 2 is valid JSON, the call succeeds at the attempt-2
temperature 0.0 after exactly two provider calls. -/
theorem c3_complete_json_two_attempts_witness :
    (complete_json stubProvider).1 = .ok ⟨.obj [("ok", .bool true)], attempt2Temp, 2⟩ ∧
    (complete_json stubProvider).2 = [(1, attempt1Temp), (2, attempt2Temp)] :=
  (c3_complete_json_two_attempts stubProvider).2.2.1 (.obj [("ok", .bool true)])
    (by rfl) (by rfl)

/-- C9 counterexample: when only the job description is supplied, the built
request carries no contextual instruction string at all — the job
description is passed as its own separate field instead of being rendered
into the single contextual instruction string the claim describes. -/
theorem c9_counterexample_jd_not_in_context :
    ctxJDOnly.job_description = some "Build APIs" ∧
    (buildRequest "summary" (some ctxJDOnly)).context = none ∧
    (buildRequest "summary" (some ctxJDOnly)).job_description = some "Build APIs" :=
  ⟨rfl, rfl, rfl⟩

/-- C9 (amended): the request builder renders exactly the present fields
among target role, target industry, tone, and desired length — in that
order — into the single contextual instruction string joined by ". ",
leaving omitted fields unmentioned, while the job description is passed
through as its own separate request field rather than being rendered into
that string. -/
theorem c9_context_building (sectionType : String) (ctx : RegenContext) :
    buildContextParts ctx =
      (ctx.target_role.map fun v => "Target role: " ++ v).toList ++
      (ctx.target_industry.map fun v => "Target industry: " ++ v).toList ++
      (ctx.tone.map fun v => "Tone: " ++ v).toList ++
      (ctx.length.map fun v => "Length: " ++ v).toList ∧
    (buildRequest sectionType (some ctx)).job_description = ctx.job_description ∧
    (buildRequest sectionType (some ctx)).context =
      (if (buildContextParts ctx).length > 0
       then some (String.intercalate ". " (buildContextParts ctx)) else none) ∧
    (buildRequest sectionType none).context = none ∧
    (buildRequest sectionType none).job_description = none := by
  obtain ⟨jd, tr, ti, tn, ln⟩ := ctx
  refine ⟨?_, rfl, rfl, rfl, rfl⟩
  cases tr <;> cases ti <;> cases tn <;> cases ln <;> simp [buildContextParts]

/-- C10: a regenerate-section response is applied only when the regenerated
content's runtime type matches the section's shape — a non-empty string for
summary, an array for experience and projects, an object (in the JavaScript
typeof sense) for skills — and missing or wrong-typed content leaves the
resume data completely unchanged. -/
theorem c10_apply_regenerated_typed (data : ResumeData) (j : Json) :
    (∀ key : String, applyRegenerated key data none = data) ∧
    (∀ s : String, s ≠ "" →
      applyRegenerated "summary" data (some (.str s)) = { data with summary := s }) ∧
    (jsTruthy j = false ∨ jsTypeof j ≠ "string" →
      applyRegenerated "summary" data (some j) = data) ∧
    (∀ l : List Json,
      applyRegenerated "workExperience" data (some (.arr l)) =
        { data with workExperience := l } ∧
      applyRegenerated "personalProjects" data (some (.arr l)) =
        { data with personalProjects := l }) ∧
    (isArray j = false →
      applyRegenerated "workExperience" data (some j) = data ∧
      applyRegenerated "personalProjects" data (some j) = data) ∧
    (jsTruthy j = true → jsTypeof j = "object" →
      applyRegenerated "additional" data (some j) = { data with additional := j }) ∧
    (jsTruthy j = false ∨ jsTypeof j ≠ "object" →
      applyRegenerated "additional" data (some j) = data) := by
  refine ⟨fun key => rfl, fun s hs => ?_, fun h => ?_, fun l => ⟨?_, ?_⟩, fun h => ⟨?_, ?_⟩,
    fun h1 h2 => ?_, fun h => ?_⟩
  · simp [applyRegenerated, jsTruthy, jsTypeof, hs]
  · rcases h with h | h <;> cases j <;>
      simp_all [applyRegenerated, jsTruthy, jsTypeof]
  · simp [applyRegenerated, jsTruthy, isArray]
  · simp [applyRegenerated, jsTruthy, isArray]
  · cases j <;> simp_all [applyRegenerated, jsTruthy, isArray]
  · cases j <;> simp_all [applyRegenerated, jsTruthy, isArray]
  · cases j <;> simp_all [applyRegenerated, jsTruthy, jsTypeof]
  · rcases h with h | h <;> cases j <;>
      simp_all [applyRegenerated, jsTruthy, jsTypeof]

/-- Witness for C10: concrete applications — a non-empty summary string is
applied, and a number sent to an array-shaped section leaves the data
unchanged. -/
theorem c10_apply_regenerated_typed_witness :
    applyRegenerated "summary" demoData (some (.str "Hi")) =
      { demoData with summary := "Hi" } ∧
    applyRegenerated "workExperience" demoData (some (.num 5)) = demoData :=
  ⟨(c10_apply_regenerated_typed demoData (.num 5)).2.1 "Hi" (by decide),
   ((c10_apply_regenerated_typed demoData (.num 5)).2.2.2.2.1 (by rfl)).1⟩

/-- C5: reset clears custom content and custom name while leaving the
enabled flag untouched, succeeds as a no-op even when there is nothing to
reset, and fails with NotFoundError only on an unknown id; resetAll clears
the content/name overrides of every row while preserving its enabled
state. -/
theorem c5_reset_semantics (catalog : List PromptDefinition) (store : OverrideStore)
    (id : String) :
    (findDef catalog id = none → reset_prompt catalog store id = .error .notFound) ∧
    (∀ d : PromptDefinition, findDef catalog id = some d →
      ∃ (ep : EffectivePrompt) (store2 : OverrideStore),
        reset_prompt catalog store id = .ok (ep, store2) ∧
        (lookupOverride store2 id).bind (·.custom_content) = none ∧
        (lookupOverride store2 id).bind (·.custom_name) = none ∧
        (lookupOverride store2 id).bind (·.enabled) =
          (lookupOverride store id).bind (·.enabled) ∧
        ep.content = d.default_content ∧ ep.name = d.default_name ∧
        ep.is_custom = false ∧
        ep.is_enabled = (effectivePrompt d (lookupOverride store id)).is_enabled) ∧
    (∀ id2 : String, lookupOverride (reset_all_prompts store) id2 =
      (lookupOverride store id2).map clearContentName) := by
  refine ⟨fun hnone => ?_, fun d hd => ?_, fun id2 => lookupOverride_map _ store id2⟩
  · simp [reset_prompt, hnone]
  · have hproj := proj_getD_emptyOverride (lookupOverride store id) (·.enabled) rfl
    refine ⟨effectivePrompt d
        (some (clearContentName ((lookupOverride store id).getD emptyOverride))),
      setOverride store id (clearContentName ((lookupOverride store id).getD emptyOverride)),
      by simp [reset_prompt, hd], ?_, ?_, ?_, rfl, rfl, rfl, ?_⟩
    · rw [lookupOverride_setOverride_self]; rfl
    · rw [lookupOverride_setOverride_self]; rfl
    · rw [lookupOverride_setOverride_self]
      exact hproj
    · simp [effectivePrompt, clearContentName, hproj]

/-- Witness for C5: a reset on a known prompt with no override is a no-op
success with defaults and the enabled flag untouched. -/
theorem c5_reset_semantics_witness :
    ∃ (ep : EffectivePrompt) (store2 : OverrideStore),
      reset_prompt demoCatalog [] "regenerate_summary" = .ok (ep, store2) ∧
      (lookupOverride store2 "regenerate_summary").bind (·.custom_content) = none ∧
      (lookupOverride store2 "regenerate_summary").bind (·.custom_name) = none ∧
      (lookupOverride store2 "regenerate_summary").bind (·.enabled) =
        (lookupOverride [] "regenerate_summary").bind (·.enabled) ∧
      ep.content = demoDef.default_content ∧ ep.name = demoDef.default_name ∧
      ep.is_custom = false ∧
      ep.is_enabled =
        (effectivePrompt demoDef (lookupOverride [] "regenerate_summary")).is_enabled :=
  (c5_reset_semantics demoCatalog [] "regenerate_summary").2.1 demoDef (by rfl)

/-- C6: updating a prompt's content and immediately getting it returns that
content with is_custom true while the name is unchanged from before the
update; any subset of update fields may be supplied and omitted fields are
unchanged. -/
theorem c6_update_then_get (catalog : List PromptDefinition) (store : OverrideStore)
    (id X : String) :
    (∀ d : PromptDefinition, findDef catalog id = some d →
      ∃ (ep : EffectivePrompt) (store2 : OverrideStore),
        update_prompt catalog store id ⟨some X, none, none⟩ = .ok (ep, store2) ∧
        get_prompt catalog store2 id = .ok ep ∧
        ep.content = X ∧ ep.is_custom = true ∧
        ep.name = (effectivePrompt d (lookupOverride store id)).name) ∧
    (∀ (ov : PromptOverride) (u : UpdateFields),
      (u.content = none → (applyUpdate ov u).custom_content = ov.custom_content) ∧
      (∀ Y, u.content = some Y → (applyUpdate ov u).custom_content = some Y) ∧
      (u.custom_name = none → (applyUpdate ov u).custom_name = ov.custom_name) ∧
      (∀ Y, u.custom_name = some Y → (applyUpdate ov u).custom_name = some Y) ∧
      (u.enabled = none → (applyUpdate ov u).enabled = ov.enabled) ∧
      (∀ b, u.enabled = some b → (applyUpdate ov u).enabled = some b)) := by
  constructor
  · intro d hd
    have hname := proj_getD_emptyOverride (lookupOverride store id) (·.custom_name) rfl
    refine ⟨effectivePrompt d
        (some (applyUpdate ((lookupOverride store id).getD emptyOverride) ⟨some X, none, none⟩)),
      setOverride store id
        (applyUpdate ((lookupOverride store id).getD emptyOverride) ⟨some X, none, none⟩),
      by simp [update_prompt, hd], ?_, rfl, rfl, ?_⟩
    · simp [get_prompt, hd, lookupOverride_setOverride_self]
    · simp [effectivePrompt, applyUpdate, hname]
  · intro ov u
    refine ⟨fun h => ?_, fun Y h => ?_, fun h => ?_, fun Y h => ?_, fun h => ?_, fun b h => ?_⟩ <;>
      simp [applyUpdate, h]

/-- Witness for C6: updating the demo prompt's content to "NEW" and getting
it back yields content "NEW", is_custom true, and the default name. -/
theorem c6_update_then_get_witness :
    ∃ (ep : EffectivePrompt) (store2 : OverrideStore),
      update_prompt demoCatalog [] "regenerate_summary" ⟨some "NEW", none, none⟩ =
        .ok (ep, store2) ∧
      get_prompt demoCatalog store2 "regenerate_summary" = .ok ep ∧
      ep.content = "NEW" ∧ ep.is_custom = true ∧
      ep.name = (effectivePrompt demoDef (lookupOverride [] "regenerate_summary")).name :=
  (c6_update_then_get demoCatalog [] "regenerate_summary" "NEW").1 demoDef (by rfl)

/-- C8: when the mapped prompt resolves with is_enabled false, section
regeneration fails with PromptDisabledError and the provider is never
invoked (zero provider calls). -/
theorem c8_disabled_blocks_provider (catalog : List PromptDefinition)
    (store : OverrideStore) (sectionType current : String) (contextStr : Option String)
    (provider : String → Nat → ℚ → String) (pid : String) (ep : EffectivePrompt) :
    sectionPromptId sectionType = .ok pid →
    get_prompt catalog store pid = .ok ep →
    ep.is_enabled = false →
    regenerateSection catalog store sectionType current contextStr provider =
      (.error .promptDisabled, 0) := by
  intro h1 h2 h3
  simp [regenerateSection, h1, h2, h3]

/-- Witness for C8: regenerating the summary section while its prompt is
disabled fails with PromptDisabledError and zero provider calls. -/
theorem c8_disabled_blocks_provider_witness :
    regenerateSection demoCatalog demoStoreDisabled "summary" "old text" none
      (fun _ _ _ => "response") = (.error .promptDisabled, 0) :=
  c8_disabled_blocks_provider demoCatalog demoStoreDisabled "summary" "old text" none
    (fun _ _ _ => "response") "regenerate_summary"
    (effectivePrompt demoDef (some ⟨none, none, some false⟩)) rfl rfl rfl
